import Mathlib

/-!
# IpoptAdapter driver (`src/Drivers/IpoptAdapter_driver.cpp`)

A shallow embedding of the driver's `main`.  The driver is a straight line of
calls into two external libraries (HiOp and Ipopt) followed by two branches on
the status the solver returns.  The libraries are not part of the program, so
the values they hand back are inputs of the model (`IpoptLib`), and every call
the driver makes on them is recorded, in order, in a list of `Call`s.

Implicit calls (the destructors run at scope exit) are not recorded.
-/

namespace IpoptAdapterDriver

/-- Value of Ipopt's unscoped enumeration `ApplicationReturnStatus`: the
underlying integer.  Both `!=` / `==` on two statuses and the cast `(int)` act
on this integer.  The enumerators themselves live in an Ipopt header that is
not part of the driver, so the one the driver names, `Solve_Succeeded`, is a
parameter of `main`. -/
structure ApplicationReturnStatus where
  code : Int
deriving DecidableEq, Repr

/-- The cast `(int) status`. -/
def ApplicationReturnStatus.toInt (s : ApplicationReturnStatus) : Int := s.code

/-- A decimal floating literal of the source text, `<mantissa>e<exponent>`. -/
structure FloatingLiteral where
  mantissa : Nat
  exponent : Int
deriving DecidableEq, Repr

/-- The decimal number a floating literal writes, as a rational.  This is the
number on the page; the value the program passes is the `double` the literal is
converted to, `FloatingLiteral.toDouble`. -/
def FloatingLiteral.value (l : FloatingLiteral) : ℚ :=
  if 0 ≤ l.exponent then (l.mantissa : ℚ) * 10 ^ l.exponent.toNat
  else (l.mantissa : ℚ) / 10 ^ (-l.exponent).toNat

/-- Number of binary digits of `n` (at most `fuel` of them are counted). -/
def bitLength : Nat → Nat → Nat
  | 0, _ => 0
  | fuel + 1, n => if n = 0 then 0 else bitLength fuel (n / 2) + 1

/-- The integer `e` with `2 ^ e ≤ num / den < 2 ^ (e + 1)`, for positive `num`
and `den`. -/
def binaryExponent (num den : Nat) : Int :=
  let e0 : Int := (bitLength num num : Int) - (bitLength den den : Int)
  if (if 0 ≤ e0 then den * 2 ^ e0.toNat ≤ num else den ≤ num * 2 ^ (-e0).toNat) then e0
  else e0 - 1

/-- The integer nearest to `n / d`, a tie going to the even one. -/
def roundNearestEven (n d : Nat) : Nat :=
  if 2 * (n % d) < d then n / d
  else if 2 * (n % d) = d then (if (n / d) % 2 = 0 then n / d else n / d + 1)
  else n / d + 1

/-- Conversion of the non-negative fraction `num / den` to IEEE binary64, round
to nearest, ties to even: the result `(sig, e)` stands for `sig * 2 ^ e`, with a
53-bit significand and the exponent of the last place no lower than -1074;
`none` when the fraction is beyond the range of `double`. -/
def roundToBinary64 (num den : Nat) : Option (Nat × Int) :=
  if num = 0 then some (0, 0)
  else
    let e := binaryExponent num den
    let s : Int := 52 - max e (-1022)
    let sig := if 0 ≤ s then roundNearestEven (num * 2 ^ s.toNat) den
               else roundNearestEven num (den * 2 ^ (-s).toNat)
    if 1024 ≤ e ∨ (e = 1023 ∧ 2 ^ 53 ≤ sig) then none
    else some (sig, -s)

/-- Significand and exponent of the `double` a floating literal is converted
to. -/
def FloatingLiteral.toBinary64 (l : FloatingLiteral) : Option (Nat × Int) :=
  if 0 ≤ l.exponent then roundToBinary64 (l.mantissa * 10 ^ l.exponent.toNat) 1
  else roundToBinary64 l.mantissa (10 ^ (-l.exponent).toNat)

/-- The `double` a floating literal is converted to, as the rational it equals
exactly. -/
def FloatingLiteral.toDouble (l : FloatingLiteral) : Option ℚ :=
  l.toBinary64.map fun p => (p.1 : ℚ) * 2 ^ p.2

/-- The HiOp problem object `Ex4 hiopNlp(n)`. -/
structure Ex4 where
  n : Int
deriving DecidableEq, Repr

/-- The adapter object `new hiopMDS2IpoptTNLP(&hiopNlp)`: it holds the problem
it was constructed over. -/
structure hiopMDS2IpoptTNLP where
  hiopNlp : Ex4
deriving DecidableEq, Repr

/-- The calls `main` makes, one constructor per call expression of the source.
`SetNumericValue` and `SetStringValue` stand for the chained expressions
`app->Options()->SetNumericValue(..)` and `app->Options()->SetStringValue(..)`,
with the arguments as the source writes them (the number passed for a floating
literal is its `FloatingLiteral.toDouble`);
`coutEndl` and `coutStr` are the two kinds of item inserted into `std::cout`. -/
inductive Call where
  | newEx4 (n : Int)
  | newAdapter (hiopNlp : Ex4)
  | IpoptApplicationFactory
  | SetNumericValue (key : String) (value : FloatingLiteral)
  | SetStringValue (key : String) (value : String)
  | Initialize
  | OptimizeTNLP (tnlp : hiopMDS2IpoptTNLP)
  | coutEndl
  | coutStr (s : String)
deriving DecidableEq, Repr

/-- What the Ipopt library answers to the calls of the driver. -/
structure IpoptLib where
  SetNumericValue : String → FloatingLiteral → Bool
  SetStringValue : String → String → Bool
  Initialize : ApplicationReturnStatus
  OptimizeTNLP : hiopMDS2IpoptTNLP → ApplicationReturnStatus

/-- Programs of the driver: a computation that appends to the list of calls. -/
abbrev Prog := StateM (List Call)

/-- Record one call. -/
def call (c : Call) : Prog Unit := modify (fun t => t ++ [c])

/-- Statement `std::cout << std::endl << std::endl << msg << std::endl;`. -/
def coutMessage (msg : String) : Prog Unit := do
  call Call.coutEndl
  call Call.coutEndl
  call (Call.coutStr msg)
  call Call.coutEndl

/-- Body of `int main(int argv, char** argc)` (the parameters keep the names
the source gives them). -/
def mainBody (Solve_Succeeded : ApplicationReturnStatus) (ipopt : IpoptLib)
    (argv : Int) (argc : List String) : Prog Int := do
  -- Ex4 hiopNlp(12);
  call (Call.newEx4 12)
  let hiopNlp : Ex4 := ⟨12⟩
  -- SmartPtr<TNLP> mynlp = new hiopMDS2IpoptTNLP(&hiopNlp);
  call (Call.newAdapter hiopNlp)
  let mynlp : hiopMDS2IpoptTNLP := ⟨hiopNlp⟩
  -- SmartPtr<IpoptApplication> app = IpoptApplicationFactory();
  call Call.IpoptApplicationFactory
  -- app->Options()->SetNumericValue("tol", 1e-7);
  call (Call.SetNumericValue "tol" ⟨1, -7⟩)
  let _ := ipopt.SetNumericValue "tol" ⟨1, -7⟩
  -- app->Options()->SetStringValue("mu_strategy", "adaptive");
  call (Call.SetStringValue "mu_strategy" "adaptive")
  let _ := ipopt.SetStringValue "mu_strategy" "adaptive"
  -- app->Options()->SetStringValue("output_file", "ipopt.out");
  call (Call.SetStringValue "output_file" "ipopt.out")
  let _ := ipopt.SetStringValue "output_file" "ipopt.out"
  -- status = app->Initialize();
  call Call.Initialize
  let mut status := ipopt.Initialize
  if status ≠ Solve_Succeeded then
    coutMessage "*** Error during initialization!"
    return status.toInt
  -- status = app->OptimizeTNLP(mynlp);
  call (Call.OptimizeTNLP mynlp)
  status := ipopt.OptimizeTNLP mynlp
  if status = Solve_Succeeded then
    coutMessage "*** The problem solved!"
  else
    coutMessage "*** The problem FAILED!"
  return status.toInt

/-- One run of `main`: the value it returns and the calls it made, in order,
starting from no call made. -/
def main (Solve_Succeeded : ApplicationReturnStatus) (ipopt : IpoptLib)
    (argv : Int) (argc : List String) : Int × List Call :=
  (mainBody Solve_Succeeded ipopt argv argc).run []

/-- Calls made up to and including `Initialize`. -/
def callsThroughInitialize : List Call :=
  [Call.newEx4 12, Call.newAdapter ⟨12⟩, Call.IpoptApplicationFactory,
   Call.SetNumericValue "tol" ⟨1, -7⟩,
   Call.SetStringValue "mu_strategy" "adaptive",
   Call.SetStringValue "output_file" "ipopt.out",
   Call.Initialize]

/-- Items put on `std::cout` by one message statement. -/
def messageCalls (msg : String) : List Call :=
  [Call.coutEndl, Call.coutEndl, Call.coutStr msg, Call.coutEndl]

/-! ## Observations on a run -/

/-- The strings inserted into `std::cout`, in order. -/
def printed (t : List Call) : List String :=
  t.filterMap fun c => match c with
    | Call.coutStr s => some s
    | _ => none

/-- Is the call an `OptimizeTNLP`? -/
def Call.isOptimizeTNLP : Call → Bool
  | Call.OptimizeTNLP _ => true
  | _ => false

/-- Is the call one of the two option setters? -/
def Call.isSetOption : Call → Bool
  | Call.SetNumericValue _ _ => true
  | Call.SetStringValue _ _ => true
  | _ => false

/-- The calls made before the first occurrence of `c`. -/
def callsBefore (c : Call) (t : List Call) : List Call :=
  t.takeWhile fun x => decide (x ≠ c)

/-- The calls made after the first occurrence of `c`. -/
def callsAfter (c : Call) (t : List Call) : List Call :=
  (t.dropWhile fun x => decide (x ≠ c)).tail

/-- The key and the number passed (a `double`) of a numeric option setting. -/
def Call.numericOption : Call → Option (String × ℚ)
  | Call.SetNumericValue key value => value.toDouble.map fun v => (key, v)
  | _ => none

/-- An Ipopt that accepts or rejects every option, as `accept` says, and
answers `Initialize` with code `i` and `OptimizeTNLP` with code `o`. -/
def constLib (accept : Bool) (i o : Int) : IpoptLib :=
  ⟨fun _ _ => accept, fun _ _ => accept, ⟨i⟩, fun _ => ⟨o⟩⟩

/-! ## Closed form of a run -/

/-- Every run of `main` has one of three shapes, selected by the two statuses. -/
theorem main_eq (SS : ApplicationReturnStatus) (ipopt : IpoptLib) (a : Int) (v : List String) :
    main SS ipopt a v =
      if ipopt.Initialize ≠ SS then
        (ipopt.Initialize.code,
          callsThroughInitialize ++ messageCalls "*** Error during initialization!")
      else
        ((ipopt.OptimizeTNLP ⟨⟨12⟩⟩).code,
          callsThroughInitialize ++ [Call.OptimizeTNLP ⟨⟨12⟩⟩] ++
            messageCalls (if ipopt.OptimizeTNLP ⟨⟨12⟩⟩ = SS then "*** The problem solved!"
              else "*** The problem FAILED!")) := by
  by_cases h : ipopt.Initialize = SS
  · by_cases h2 : ipopt.OptimizeTNLP ⟨⟨12⟩⟩ = SS
    · simp [main, mainBody, h, h2, call, coutMessage, StateT.run, ApplicationReturnStatus.toInt]
      rfl
    · simp [main, mainBody, h, h2, call, coutMessage, StateT.run, ApplicationReturnStatus.toInt]
      rfl
  · simp [main, mainBody, h, call, coutMessage, StateT.run, ApplicationReturnStatus.toInt]
    rfl

/-- A run in which `Initialize` does not answer `Solve_Succeeded`. -/
theorem main_init_failed (SS : ApplicationReturnStatus) (ipopt : IpoptLib) (a : Int)
    (v : List String) (h : ipopt.Initialize ≠ SS) :
    main SS ipopt a v =
      (ipopt.Initialize.code,
        callsThroughInitialize ++ messageCalls "*** Error during initialization!") := by
  rw [main_eq, if_pos h]

/-- A run in which `Initialize` answers `Solve_Succeeded`. -/
theorem main_init_ok (SS : ApplicationReturnStatus) (ipopt : IpoptLib) (a : Int)
    (v : List String) (h : ipopt.Initialize = SS) :
    main SS ipopt a v =
      ((ipopt.OptimizeTNLP ⟨⟨12⟩⟩).code,
        callsThroughInitialize ++ [Call.OptimizeTNLP ⟨⟨12⟩⟩] ++
          messageCalls (if ipopt.OptimizeTNLP ⟨⟨12⟩⟩ = SS then "*** The problem solved!"
            else "*** The problem FAILED!")) := by
  rw [main_eq, if_neg (not_not.mpr h)]

/-- The literal `1e-7` is converted to the double `7555786372591432 * 2 ^ (-76)`. -/
theorem toDouble_tol : FloatingLiteral.toDouble ⟨1, -7⟩ = some (7555786372591432 / 2 ^ 76) := by
  have h : FloatingLiteral.toBinary64 ⟨1, -7⟩ = some (7555786372591432, -76) := by decide
  rw [FloatingLiteral.toDouble, h]
  norm_num [zpow_neg]

/-- The numeric options a run sets: "tol" alone, to the double of `1e-7`. -/
theorem numericOptions_main (SS : ApplicationReturnStatus) (ipopt : IpoptLib) (a : Int)
    (v : List String) :
    (main SS ipopt a v).2.filterMap Call.numericOption =
      [("tol", 7555786372591432 / 2 ^ 76)] := by
  rw [main_eq]
  split
  · simp [callsThroughInitialize, messageCalls, Call.numericOption, toDouble_tol]
  · simp [callsThroughInitialize, messageCalls, Call.numericOption, toDouble_tol]

/-! ## The claims -/

/-- C1: when `Initialize` returns a status other than `Solve_Succeeded`, `main`
returns that status cast to `int`, no `OptimizeTNLP` call is made in the run,
and the only calls after `Initialize` are the insertions of the initialization
error message into `std::cout`. -/
theorem C1_init_failure_returns_status (Solve_Succeeded : ApplicationReturnStatus)
    (ipopt : IpoptLib) (argv : Int) (argc : List String)
    (h : ipopt.Initialize ≠ Solve_Succeeded) :
    (main Solve_Succeeded ipopt argv argc).1 = ipopt.Initialize.toInt ∧
    (main Solve_Succeeded ipopt argv argc).2.filter Call.isOptimizeTNLP = [] ∧
    callsAfter Call.Initialize (main Solve_Succeeded ipopt argv argc).2 =
      [Call.coutEndl, Call.coutEndl, Call.coutStr "*** Error during initialization!",
       Call.coutEndl] := by
  rw [main_init_failed _ _ _ _ h]
  refine ⟨rfl, ?_, ?_⟩
  · show List.filter Call.isOptimizeTNLP
      (callsThroughInitialize ++ messageCalls "*** Error during initialization!") = []
    decide
  · show callsAfter Call.Initialize
      (callsThroughInitialize ++ messageCalls "*** Error during initialization!") = _
    decide

/-- Instance of C1 at `Solve_Succeeded = 0`, `Initialize` returning -12. -/
theorem C1_witness :
    (constLib true (-12) 0).Initialize ≠ ⟨0⟩ ∧
    (main ⟨0⟩ (constLib true (-12) 0) 1 []).1 = (constLib true (-12) 0).Initialize.toInt ∧
    (main ⟨0⟩ (constLib true (-12) 0) 1 []).2.filter Call.isOptimizeTNLP = [] ∧
    callsAfter Call.Initialize (main ⟨0⟩ (constLib true (-12) 0) 1 []).2 =
      [Call.coutEndl, Call.coutEndl, Call.coutStr "*** Error during initialization!",
       Call.coutEndl] :=
  ⟨by decide, C1_init_failure_returns_status ⟨0⟩ (constLib true (-12) 0) 1 [] (by decide)⟩

/-- C2: when `Initialize` returns `Solve_Succeeded`, `main` returns the status
of `OptimizeTNLP(mynlp)` cast to `int`, whatever that status `s` is (equal to
`Solve_Succeeded` or not). -/
theorem C2_returns_optimize_status (Solve_Succeeded : ApplicationReturnStatus)
    (ipopt : IpoptLib) (argv : Int) (argc : List String) (s : ApplicationReturnStatus)
    (hinit : ipopt.Initialize = Solve_Succeeded)
    (hopt : ipopt.OptimizeTNLP ⟨⟨12⟩⟩ = s) :
    (main Solve_Succeeded ipopt argv argc).1 = s.toInt ∧
    (main Solve_Succeeded ipopt argv argc).2.filter Call.isOptimizeTNLP =
      [Call.OptimizeTNLP ⟨⟨12⟩⟩] := by
  rw [main_init_ok _ _ _ _ hinit, ← hopt]
  refine ⟨rfl, ?_⟩
  dsimp only
  by_cases h2 : ipopt.OptimizeTNLP ⟨⟨12⟩⟩ = Solve_Succeeded
  · rw [if_pos h2]; decide
  · rw [if_neg h2]; decide

/-- Instance of C2 at `Solve_Succeeded = 0`, `Initialize` returning 0 and `OptimizeTNLP` returning -2. -/
theorem C2_witness :
    ((constLib true 0 (-2)).Initialize = ⟨0⟩ ∧ (constLib true 0 (-2)).OptimizeTNLP ⟨⟨12⟩⟩ = ⟨-2⟩) ∧
    (main ⟨0⟩ (constLib true 0 (-2)) 1 []).1 = (⟨-2⟩ : ApplicationReturnStatus).toInt ∧
    (main ⟨0⟩ (constLib true 0 (-2)) 1 []).2.filter Call.isOptimizeTNLP =
      [Call.OptimizeTNLP ⟨⟨12⟩⟩] :=
  ⟨by decide, C2_returns_optimize_status ⟨0⟩ (constLib true 0 (-2)) 1 [] ⟨-2⟩ (by decide) (by decide)⟩

/-- C3: in a run that reaches optimization (a call `OptimizeTNLP(tnlp)` is
made), "*** The problem solved!" is printed if and only if the status that
call returns equals `Solve_Succeeded`, "*** The problem FAILED!" is printed for
every other status, and the two messages together are printed exactly once. -/
theorem C3_outcome_message (Solve_Succeeded : ApplicationReturnStatus)
    (ipopt : IpoptLib) (argv : Int) (argc : List String) (tnlp : hiopMDS2IpoptTNLP)
    (hreached : Call.OptimizeTNLP tnlp ∈ (main Solve_Succeeded ipopt argv argc).2) :
    ("*** The problem solved!" ∈ printed (main Solve_Succeeded ipopt argv argc).2 ↔
      ipopt.OptimizeTNLP tnlp = Solve_Succeeded) ∧
    ("*** The problem FAILED!" ∈ printed (main Solve_Succeeded ipopt argv argc).2 ↔
      ipopt.OptimizeTNLP tnlp ≠ Solve_Succeeded) ∧
    (printed (main Solve_Succeeded ipopt argv argc).2).count "*** The problem solved!" +
      (printed (main Solve_Succeeded ipopt argv argc).2).count "*** The problem FAILED!" = 1 := by
  by_cases hinit : ipopt.Initialize = Solve_Succeeded
  · rw [main_init_ok _ _ _ _ hinit] at hreached ⊢
    dsimp only at hreached ⊢
    have htnlp : tnlp = ⟨⟨12⟩⟩ := by
      by_cases h2 : ipopt.OptimizeTNLP ⟨⟨12⟩⟩ = Solve_Succeeded
      · rw [if_pos h2] at hreached
        simpa [callsThroughInitialize, messageCalls] using hreached
      · rw [if_neg h2] at hreached
        simpa [callsThroughInitialize, messageCalls] using hreached
    subst htnlp
    by_cases h2 : ipopt.OptimizeTNLP ⟨⟨12⟩⟩ = Solve_Succeeded
    · rw [if_pos h2]
      refine ⟨iff_of_true (by decide) h2, iff_of_false (by decide) (not_not.mpr h2), by decide⟩
    · rw [if_neg h2]
      refine ⟨iff_of_false (by decide) h2, iff_of_true (by decide) h2, by decide⟩
  · rw [main_init_failed _ _ _ _ hinit] at hreached
    dsimp only at hreached
    simp [callsThroughInitialize, messageCalls] at hreached

/-- Instance of C3 at `Solve_Succeeded = 0`, `Initialize` returning 0 and `OptimizeTNLP` returning 1. -/
theorem C3_witness :
    Call.OptimizeTNLP ⟨⟨12⟩⟩ ∈ (main ⟨0⟩ (constLib true 0 1) 1 []).2 ∧
    ("*** The problem solved!" ∈ printed (main ⟨0⟩ (constLib true 0 1) 1 []).2 ↔
      (constLib true 0 1).OptimizeTNLP ⟨⟨12⟩⟩ = ⟨0⟩) ∧
    ("*** The problem FAILED!" ∈ printed (main ⟨0⟩ (constLib true 0 1) 1 []).2 ↔
      (constLib true 0 1).OptimizeTNLP ⟨⟨12⟩⟩ ≠ ⟨0⟩) ∧
    (printed (main ⟨0⟩ (constLib true 0 1) 1 []).2).count "*** The problem solved!" +
      (printed (main ⟨0⟩ (constLib true 0 1) 1 []).2).count "*** The problem FAILED!" = 1 :=
  ⟨by decide, C3_outcome_message ⟨0⟩ (constLib true 0 1) 1 [] ⟨⟨12⟩⟩ (by decide)⟩

/-- C4, as stated, fails: with `Solve_Succeeded = 0` and `Initialize` returning
`-12`, the run completes and prints neither of the two outcome messages. -/
theorem C4_counterexample :
    ¬ ("*** The problem solved!" ∈ printed (main ⟨0⟩ (constLib true (-12) 0) 1 []).2 ∨
       "*** The problem FAILED!" ∈ printed (main ⟨0⟩ (constLib true (-12) 0) 1 []).2) := by
  decide

/-- C4, amended: a run prints one of the two outcome messages if and only if
`Initialize` returned `Solve_Succeeded`; a run in which `Initialize` returned
another status prints neither. -/
theorem C4_outcome_message_iff_initialized (Solve_Succeeded : ApplicationReturnStatus)
    (ipopt : IpoptLib) (argv : Int) (argc : List String) :
    ("*** The problem solved!" ∈ printed (main Solve_Succeeded ipopt argv argc).2 ∨
     "*** The problem FAILED!" ∈ printed (main Solve_Succeeded ipopt argv argc).2) ↔
    ipopt.Initialize = Solve_Succeeded := by
  by_cases hinit : ipopt.Initialize = Solve_Succeeded
  · rw [main_init_ok _ _ _ _ hinit]
    dsimp only
    refine iff_of_true ?_ hinit
    by_cases h2 : ipopt.OptimizeTNLP ⟨⟨12⟩⟩ = Solve_Succeeded
    · rw [if_pos h2]; exact Or.inl (by decide)
    · rw [if_neg h2]; exact Or.inr (by decide)
  · rw [main_init_failed _ _ _ _ hinit]
    dsimp only
    exact iff_of_false (by decide) hinit

/-- C5: in a run in which `Initialize` returns `Solve_Succeeded`, the calls
`main` makes are exactly, in this order: construct `Ex4` of size 12, construct
the adapter over it, construct the application, set the three options,
`Initialize`, `OptimizeTNLP` on that adapter, insert the outcome message into
`std::cout`; `Initialize` and `OptimizeTNLP` are each called once. -/
theorem C5_linear_control_flow (Solve_Succeeded : ApplicationReturnStatus)
    (ipopt : IpoptLib) (argv : Int) (argc : List String)
    (hinit : ipopt.Initialize = Solve_Succeeded) :
    (main Solve_Succeeded ipopt argv argc).2 =
      [Call.newEx4 12,
       Call.newAdapter ⟨12⟩,
       Call.IpoptApplicationFactory,
       Call.SetNumericValue "tol" ⟨1, -7⟩,
       Call.SetStringValue "mu_strategy" "adaptive",
       Call.SetStringValue "output_file" "ipopt.out",
       Call.Initialize,
       Call.OptimizeTNLP ⟨⟨12⟩⟩,
       Call.coutEndl, Call.coutEndl,
       Call.coutStr (if ipopt.OptimizeTNLP ⟨⟨12⟩⟩ = Solve_Succeeded
         then "*** The problem solved!" else "*** The problem FAILED!"),
       Call.coutEndl] ∧
    (main Solve_Succeeded ipopt argv argc).2.count Call.Initialize = 1 ∧
    ((main Solve_Succeeded ipopt argv argc).2.filter Call.isOptimizeTNLP).length = 1 := by
  rw [main_init_ok _ _ _ _ hinit]
  dsimp only
  refine ⟨rfl, ?_, ?_⟩
  · by_cases h2 : ipopt.OptimizeTNLP ⟨⟨12⟩⟩ = Solve_Succeeded
    · rw [if_pos h2]; decide
    · rw [if_neg h2]; decide
  · by_cases h2 : ipopt.OptimizeTNLP ⟨⟨12⟩⟩ = Solve_Succeeded
    · rw [if_pos h2]; decide
    · rw [if_neg h2]; decide

/-- Instance of C5 at `Solve_Succeeded = 0`, both `Initialize` and `OptimizeTNLP` returning 0. -/
theorem C5_witness :
    (constLib true 0 0).Initialize = ⟨0⟩ ∧
    (main ⟨0⟩ (constLib true 0 0) 1 []).2 =
      [Call.newEx4 12,
       Call.newAdapter ⟨12⟩,
       Call.IpoptApplicationFactory,
       Call.SetNumericValue "tol" ⟨1, -7⟩,
       Call.SetStringValue "mu_strategy" "adaptive",
       Call.SetStringValue "output_file" "ipopt.out",
       Call.Initialize,
       Call.OptimizeTNLP ⟨⟨12⟩⟩,
       Call.coutEndl, Call.coutEndl,
       Call.coutStr (if (constLib true 0 0).OptimizeTNLP ⟨⟨12⟩⟩ = ⟨0⟩
         then "*** The problem solved!" else "*** The problem FAILED!"),
       Call.coutEndl] ∧
    (main ⟨0⟩ (constLib true 0 0) 1 []).2.count Call.Initialize = 1 ∧
    ((main ⟨0⟩ (constLib true 0 0) 1 []).2.filter Call.isOptimizeTNLP).length = 1 :=
  ⟨by decide, C5_linear_control_flow ⟨0⟩ (constLib true 0 0) 1 [] (by decide)⟩

/-- C6, as stated, fails on the value of "tol": the number a run passes for it
is the double of the literal `1e-7`, which is not the rational 1/10^7. -/
theorem C6_counterexample :
    (main ⟨0⟩ (constLib true 0 0) 1 []).2.filterMap Call.numericOption ≠
      [("tol", 1 / 10 ^ 7)] := by
  rw [numericOptions_main]
  norm_num

/-- C6, amended: in every run, the option settings made before `Initialize` are
exactly numeric "tol" = 1e-7, string "mu_strategy" = "adaptive" and string
"output_file" = "ipopt.out", in this order; the number passed for "tol" is the
double of the literal 1e-7, that is 7555786372591432/2^76, which lies within
half a unit in the last place (1/2^77) of the decimal 1/10^7 the literal
writes; `Initialize` is called, and no option is set after it. -/
theorem C6_options_before_initialize (Solve_Succeeded : ApplicationReturnStatus)
    (ipopt : IpoptLib) (argv : Int) (argc : List String) :
    (callsBefore Call.Initialize (main Solve_Succeeded ipopt argv argc).2).filter
        Call.isSetOption =
      [Call.SetNumericValue "tol" ⟨1, -7⟩,
       Call.SetStringValue "mu_strategy" "adaptive",
       Call.SetStringValue "output_file" "ipopt.out"] ∧
    (main Solve_Succeeded ipopt argv argc).2.filterMap Call.numericOption =
      [("tol", 7555786372591432 / 2 ^ 76)] ∧
    FloatingLiteral.value ⟨1, -7⟩ = 1 / 10 ^ 7 ∧
    |(7555786372591432 / 2 ^ 76 : ℚ) - FloatingLiteral.value ⟨1, -7⟩| < 1 / 2 ^ 77 ∧
    Call.Initialize ∈ (main Solve_Succeeded ipopt argv argc).2 ∧
    (callsAfter Call.Initialize (main Solve_Succeeded ipopt argv argc).2).filter
        Call.isSetOption = [] := by
  have hval : FloatingLiteral.value ⟨1, -7⟩ = 1 / 10 ^ 7 := by
    have h7 : Int.toNat 7 = 7 := rfl
    norm_num [FloatingLiteral.value, h7]
  have hnear : |(7555786372591432 / 2 ^ 76 : ℚ) - FloatingLiteral.value ⟨1, -7⟩| <
      1 / 2 ^ 77 := by
    rw [hval, abs_lt]
    constructor <;> norm_num
  refine ⟨?_, numericOptions_main _ _ _ _, hval, hnear, ?_⟩
  · by_cases hinit : ipopt.Initialize = Solve_Succeeded
    · rw [main_init_ok _ _ _ _ hinit]
      dsimp only
      by_cases h2 : ipopt.OptimizeTNLP ⟨⟨12⟩⟩ = Solve_Succeeded
      · rw [if_pos h2]; decide
      · rw [if_neg h2]; decide
    · rw [main_init_failed _ _ _ _ hinit]
      dsimp only
      decide
  · by_cases hinit : ipopt.Initialize = Solve_Succeeded
    · rw [main_init_ok _ _ _ _ hinit]
      dsimp only
      by_cases h2 : ipopt.OptimizeTNLP ⟨⟨12⟩⟩ = Solve_Succeeded
      · rw [if_pos h2]; exact ⟨by decide, by decide⟩
      · rw [if_neg h2]; exact ⟨by decide, by decide⟩
    · rw [main_init_failed _ _ _ _ hinit]
      dsimp only
      exact ⟨by decide, by decide⟩

/-- C7: the two parameters of `main` are not used: two runs that differ only in
them (same solver answers) make the same calls, set the same options, print the
same message and return the same code. -/
theorem C7_arguments_ignored (Solve_Succeeded : ApplicationReturnStatus)
    (ipopt : IpoptLib) (argv argv2 : Int) (argc argc2 : List String) :
    main Solve_Succeeded ipopt argv argc = main Solve_Succeeded ipopt argv2 argc2 := by
  rw [main_eq, main_eq]

/-- C8: the value `main` returns equals `(int) Solve_Succeeded` if and only if
both `Initialize` and `OptimizeTNLP` returned `Solve_Succeeded`, which holds if
and only if "*** The problem solved!" was printed. -/
theorem C8_success_code_iff_success_message (Solve_Succeeded : ApplicationReturnStatus)
    (ipopt : IpoptLib) (argv : Int) (argc : List String) :
    ((main Solve_Succeeded ipopt argv argc).1 = Solve_Succeeded.toInt ↔
      (ipopt.Initialize = Solve_Succeeded ∧
        ipopt.OptimizeTNLP ⟨⟨12⟩⟩ = Solve_Succeeded)) ∧
    ((ipopt.Initialize = Solve_Succeeded ∧
        ipopt.OptimizeTNLP ⟨⟨12⟩⟩ = Solve_Succeeded) ↔
      "*** The problem solved!" ∈ printed (main Solve_Succeeded ipopt argv argc).2) := by
  have hinj : ∀ s t : ApplicationReturnStatus, s.code = t.toInt ↔ s = t := by
    intro s t
    cases s; cases t
    simp [ApplicationReturnStatus.toInt]
  by_cases hinit : ipopt.Initialize = Solve_Succeeded
  · rw [main_init_ok _ _ _ _ hinit]
    dsimp only
    by_cases h2 : ipopt.OptimizeTNLP ⟨⟨12⟩⟩ = Solve_Succeeded
    · rw [if_pos h2]
      exact ⟨iff_of_true ((hinj _ _).mpr h2) ⟨hinit, h2⟩, iff_of_true ⟨hinit, h2⟩ (by decide)⟩
    · rw [if_neg h2]
      exact ⟨iff_of_false (fun h => h2 ((hinj _ _).mp h)) (fun h => h2 h.2),
        iff_of_false (fun h => h2 h.2) (by decide)⟩
  · rw [main_init_failed _ _ _ _ hinit]
    dsimp only
    exact ⟨iff_of_false (fun h => hinit ((hinj _ _).mp h)) (fun h => hinit h.1),
      iff_of_false (fun h => hinit h.1) (by decide)⟩

/-- C9: when `Initialize` returns a status other than `Solve_Succeeded`,
"*** Error during initialization!" is printed exactly once and neither
"*** The problem solved!" nor "*** The problem FAILED!" is printed; when
`Initialize` returns `Solve_Succeeded`, the initialization error message is not
printed. -/
theorem C9_init_error_message (Solve_Succeeded : ApplicationReturnStatus)
    (ipopt : IpoptLib) (argv : Int) (argc : List String) :
    (ipopt.Initialize ≠ Solve_Succeeded →
      (printed (main Solve_Succeeded ipopt argv argc).2).count
          "*** Error during initialization!" = 1 ∧
      "*** The problem solved!" ∉ printed (main Solve_Succeeded ipopt argv argc).2 ∧
      "*** The problem FAILED!" ∉ printed (main Solve_Succeeded ipopt argv argc).2) ∧
    (ipopt.Initialize = Solve_Succeeded →
      "*** Error during initialization!" ∉
        printed (main Solve_Succeeded ipopt argv argc).2) := by
  constructor
  · intro hinit
    rw [main_init_failed _ _ _ _ hinit]
    dsimp only
    exact ⟨by decide, by decide, by decide⟩
  · intro hinit
    rw [main_init_ok _ _ _ _ hinit]
    dsimp only
    by_cases h2 : ipopt.OptimizeTNLP ⟨⟨12⟩⟩ = Solve_Succeeded
    · rw [if_pos h2]; decide
    · rw [if_neg h2]; decide

/-- Instance of C9 at `Solve_Succeeded = 0`: once with `Initialize` returning 3, once with it returning 0. -/
theorem C9_witness :
    ((constLib true 3 0).Initialize ≠ ⟨0⟩ ∧
      (printed (main ⟨0⟩ (constLib true 3 0) 1 []).2).count
          "*** Error during initialization!" = 1 ∧
      "*** The problem solved!" ∉ printed (main ⟨0⟩ (constLib true 3 0) 1 []).2 ∧
      "*** The problem FAILED!" ∉ printed (main ⟨0⟩ (constLib true 3 0) 1 []).2) ∧
    ((constLib true 0 3).Initialize = ⟨0⟩ ∧
      "*** Error during initialization!" ∉
        printed (main ⟨0⟩ (constLib true 0 3) 1 []).2) :=
  ⟨⟨by decide, (C9_init_error_message ⟨0⟩ (constLib true 3 0) 1 []).1 (by decide)⟩,
   ⟨by decide, (C9_init_error_message ⟨0⟩ (constLib true 0 3) 1 []).2 (by decide)⟩⟩

/-- C10: the results of the three option-setting calls are ignored: two runs
whose solvers answer the option settings in any way, and answer `Initialize`
and `OptimizeTNLP` alike, both call `Initialize`, and make the same calls,
print the same message and return the same code. -/
theorem C10_option_results_ignored (Solve_Succeeded : ApplicationReturnStatus)
    (ipopt ipopt2 : IpoptLib) (argv : Int) (argc : List String)
    (hinit : ipopt.Initialize = ipopt2.Initialize)
    (hopt : ipopt.OptimizeTNLP ⟨⟨12⟩⟩ = ipopt2.OptimizeTNLP ⟨⟨12⟩⟩) :
    Call.Initialize ∈ (main Solve_Succeeded ipopt argv argc).2 ∧
    printed (main Solve_Succeeded ipopt argv argc).2 =
      printed (main Solve_Succeeded ipopt2 argv argc).2 ∧
    (main Solve_Succeeded ipopt argv argc).1 = (main Solve_Succeeded ipopt2 argv argc).1 ∧
    main Solve_Succeeded ipopt argv argc = main Solve_Succeeded ipopt2 argv argc := by
  have heq : main Solve_Succeeded ipopt argv argc = main Solve_Succeeded ipopt2 argv argc := by
    rw [main_eq, main_eq, hinit, hopt]
  refine ⟨?_, by rw [heq], by rw [heq], heq⟩
  rw [main_eq]
  split
  · simp [callsThroughInitialize]
  · simp [callsThroughInitialize]

/-- Instance of C10 for a solver that accepts every option and one that rejects every option. -/
theorem C10_witness :
    ((constLib true 0 1).Initialize = (constLib false 0 1).Initialize ∧
      (constLib true 0 1).OptimizeTNLP ⟨⟨12⟩⟩ = (constLib false 0 1).OptimizeTNLP ⟨⟨12⟩⟩) ∧
    Call.Initialize ∈ (main ⟨0⟩ (constLib true 0 1) 1 []).2 ∧
    printed (main ⟨0⟩ (constLib true 0 1) 1 []).2 =
      printed (main ⟨0⟩ (constLib false 0 1) 1 []).2 ∧
    (main ⟨0⟩ (constLib true 0 1) 1 []).1 = (main ⟨0⟩ (constLib false 0 1) 1 []).1 ∧
    main ⟨0⟩ (constLib true 0 1) 1 [] = main ⟨0⟩ (constLib false 0 1) 1 [] :=
  ⟨by decide, C10_option_results_ignored ⟨0⟩ (constLib true 0 1) (constLib false 0 1) 1 []
    (by decide) (by decide)⟩

end IpoptAdapterDriver
